import Mathlib

/-!
Verification development for the Suriel RAG backend
(`backend/main.py`, dual-channel variant).

Text is modelled as `List Char`; the Chroma vector store as a list of
records with integer identifiers; the embedder / similarity ranking as an
opaque scoring function parameter; the Groq generation client as a
function parameter returning `Except`.
-/

set_option autoImplicit false
set_option maxRecDepth 16384

/-- Text, modelled as a list of characters. -/
abbrev Texto := List Char

/-- Constant `PREFIJO_CHAT = "MEMORIA_CHAT: "` from `main.py`. -/
def PREFIJO_CHAT : Texto := "MEMORIA_CHAT: ".toList

/-- Constant `PREFIJO_DOCUMENTO = "DOCUMENTO_RAG: "` from `main.py`. -/
def PREFIJO_DOCUMENTO : Texto := "DOCUMENTO_RAG: ".toList

/-- The fixed sentinel `source` value `"Memoria del Chat"` used to tag
conversation-memory records in `main.py`. -/
def FUENTE_MEMORIA : Texto := "Memoria del Chat".toList

/-- A LangChain `Document` record as stored in the Chroma index:
`page_content` plus the metadata fields the program writes
(`source` always; `tipo` only on memory records). -/
structure Documento where
  page_content : Texto
  source : Texto
  tipo : Option Texto
deriving DecidableEq, Repr

/-- The Chroma vector store: the list of indexed records, each paired with
a stable identifier, plus the next fresh identifier. -/
structure VectorStore where
  docs : List (Nat × Documento)
  nextId : Nat
deriving DecidableEq, Repr

/-- The empty store (a fresh `vector_db` directory). -/
def VectorStore.vacia : VectorStore := { docs := [], nextId := 0 }

/-- Pairs each record with a consecutive identifier starting at `base`
(the model of Chroma's per-record id assignment). -/
def numerar (base : Nat) : List Documento → List (Nat × Documento)
  | [] => []
  | d :: ds => (base, d) :: numerar (base + 1) ds

/-- `vectorstore.add_documents(nuevos)`: appends each record with a fresh
identifier. -/
def add_documents (vs : VectorStore) (nuevos : List Documento) : VectorStore :=
  { docs := vs.docs ++ numerar vs.nextId nuevos,
    nextId := vs.nextId + nuevos.length }

/-- `obtener_conteo_total_de_vectores` (`vectorstore._collection.count()`):
the number of records currently indexed. -/
def obtener_conteo_total_de_vectores (vs : VectorStore) : Nat :=
  vs.docs.length

/-- Decides whether `pat` occurs at the very start of `s`
(the suffix/initial-segment test used below). -/
def esTrozoInicial : Texto → Texto → Bool
  | [], _ => true
  | _ :: _, [] => false
  | a :: as, b :: bs => a == b && esTrozoInicial as bs

/-- Fuel-indexed worker for `reemplazar`; the fuel is the length of the
scanned text, which suffices because each step consumes at least one
character when the pattern is nonempty. -/
def reemplazarGo (pat : Texto) : Nat → Texto → Texto
  | _, [] => []
  | 0, s => s
  | fuel + 1, c :: rest =>
      if esTrozoInicial pat (c :: rest) then
        reemplazarGo pat fuel ((c :: rest).drop pat.length)
      else
        c :: reemplazarGo pat fuel rest

/-- Embeds Python `s.replace(pat, "")` as used in the `/chat` handler:
every non-overlapping occurrence of `pat` is removed, scanning left to
right, wherever it appears in `s`. -/
def reemplazar (pat s : Texto) : Texto :=
  reemplazarGo pat s.length s

/-- Fuel-indexed worker for `chunkText`; the fuel is the length of the
input, which suffices because each recursive step drops `S - O ≥ 1`
characters. -/
def chunkTextGo (S O : Nat) : Nat → Texto → List Texto
  | _, [] => []
  | 0, s => [s]
  | fuel + 1, s =>
      if s.length ≤ S then [s]
      else s.take S :: chunkTextGo S O fuel (s.drop (S - O))

/-- Modelled from the spec: the text chunker realised in the source by the
external `RecursiveCharacterTextSplitter(chunk_size=S, chunk_overlap=O)`
library call (`main.py`, `agregar_pdf_a_vectorstore`), whose implementation
is not part of this repository.  Per spec §4.1 it cuts the input into
windows of at most `S` characters, each window after the first repeating
the trailing `O` characters of the previous one (the hard-cut fallback of
the splitting policy, with `O < S`). -/
def chunkText (S O : Nat) (s : Texto) : List Texto :=
  chunkTextGo S O s.length s

/-- Stable insertion, by strictly greater score, into a list already
sorted by descending score. -/
def insertarDesc (puntaje : Nat × Documento → Nat) (p : Nat × Documento) :
    List (Nat × Documento) → List (Nat × Documento)
  | [] => [p]
  | q :: qs =>
      if puntaje q < puntaje p then p :: q :: qs
      else q :: insertarDesc puntaje p qs

/-- Sorts records by descending score (stable insertion sort). -/
def ordenarDesc (puntaje : Nat × Documento → Nat) :
    List (Nat × Documento) → List (Nat × Documento)
  | [] => []
  | p :: ps => insertarDesc puntaje p (ordenarDesc puntaje ps)

/-- `vectorstore.similarity_search(consulta, k, filter)`: restricts the
index to records matching the metadata filter, ranks the candidates by
descending similarity (the opaque embedder is abstracted as the scoring
function `puntaje`), and returns at most `k` of them. -/
def similarity_search (vs : VectorStore) (puntaje : Texto → Texto → Nat)
    (consulta : Texto) (k : Nat) (filtro : Documento → Bool) :
    List (Nat × Documento) :=
  (ordenarDesc (fun p => puntaje consulta p.2.page_content)
    (vs.docs.filter (fun p => filtro p.2))).take k

/-- Decides whether `sufijo` is a suffix of `s` (Python `str.endswith`). -/
def terminaEn (sufijo s : Texto) : Bool :=
  esTrozoInicial sufijo.reverse s.reverse

/-- An `HTTPException`: status code plus detail message. -/
structure ErrorHttp where
  codigo : Nat
  detalle : Texto
deriving DecidableEq, Repr

/-- Step 2 of `agregar_pdf_a_vectorstore`: tag each page loaded by the
external `PyPDFLoader` with `source = nombre_archivo` and put the
`DOCUMENTO_RAG: ` marker in front of its content. -/
def etiquetarPaginas (paginas : List Texto) (nombre_archivo : Texto) :
    List Documento :=
  paginas.map (fun contenido =>
    { page_content := PREFIJO_DOCUMENTO ++ contenido,
      source := nombre_archivo,
      tipo := none })

/-- Step 3 of `agregar_pdf_a_vectorstore`: `split_documents` — chunk each
tagged page's content with `chunk_size=1000, chunk_overlap=100`, keeping
its metadata. -/
def dividirDocumentos (documentos : List Documento) : List Documento :=
  documentos.flatMap (fun d =>
    (chunkText 1000 100 d.page_content).map (fun t =>
      { page_content := t, source := d.source, tipo := d.tipo }))

/-- `agregar_pdf_a_vectorstore(ruta_archivo, nombre_archivo)`: tags the
extracted pages, splits them into chunks, indexes the chunks and returns
their number.  The external PDF extraction is abstracted as the already
extracted page list `paginas`. -/
def agregar_pdf_a_vectorstore (vs : VectorStore) (paginas : List Texto)
    (nombre_archivo : Texto) : Nat × VectorStore :=
  let documentos := etiquetarPaginas paginas nombre_archivo
  let trozos := dividirDocumentos documentos
  (trozos.length, add_documents vs trozos)

/-- The success message returned by `POST /upload`:
`f"Archivo '{nombre}' indexado con éxito. Trozos creados: {n}"`. -/
def mensajeSubida (nombre_archivo : Texto) (num_trozos : Nat) : Texto :=
  "Archivo '".toList ++ nombre_archivo
    ++ "' indexado con éxito. Trozos creados: ".toList
    ++ (Nat.repr num_trozos).toList

/-- `POST /upload` (`subir_pdf`): rejects filenames not ending in `.pdf`
with a 400 client error and leaves the index untouched; otherwise indexes
the document and reports the number of chunks created.  Returns the
response together with the resulting store state. -/
def subir_pdf (vs : VectorStore) (nombre_archivo : Texto)
    (paginas : List Texto) : Except ErrorHttp Texto × VectorStore :=
  if terminaEn ".pdf".toList nombre_archivo = false then
    (Except.error { codigo := 400, detalle := "Solo se permiten archivos PDF.".toList }, vs)
  else
    let resultado := agregar_pdf_a_vectorstore vs paginas nombre_archivo
    (Except.ok (mensajeSubida nombre_archivo resultado.1), resultado.2)

/-- Search 1 of the `/chat` handler: retrieve RAG documents — at most 9
records whose `source` metadata is NOT the memory sentinel
(`filter={"source": {"$ne": "Memoria del Chat"}}`, `k=9`). -/
def documentos_rag (vs : VectorStore) (puntaje : Texto → Texto → Nat)
    (mensaje : Texto) : List (Nat × Documento) :=
  similarity_search vs puntaje mensaje 9 (fun d => decide (d.source ≠ FUENTE_MEMORIA))

/-- Search 2 of the `/chat` handler: retrieve chat memory — at most 6
records whose `source` metadata IS the memory sentinel
(`filter={"source": "Memoria del Chat"}`, `k=6`). -/
def documentos_memoria (vs : VectorStore) (puntaje : Texto → Texto → Nat)
    (mensaje : Texto) : List (Nat × Documento) :=
  similarity_search vs puntaje mensaje 6 (fun d => decide (d.source = FUENTE_MEMORIA))

/-- `contexto_documentos` in the `/chat` handler: the retrieved RAG
records' contents with `doc.page_content.replace(PREFIJO_DOCUMENTO, "")`
applied. -/
def contexto_documentos (vs : VectorStore) (puntaje : Texto → Texto → Nat)
    (mensaje : Texto) : List Texto :=
  (documentos_rag vs puntaje mensaje).map
    (fun p => reemplazar PREFIJO_DOCUMENTO p.2.page_content)

/-- `contexto_chat` in the `/chat` handler: the retrieved memory records'
contents with `doc.page_content.replace(PREFIJO_CHAT, "")` applied. -/
def contexto_chat (vs : VectorStore) (puntaje : Texto → Texto → Nat)
    (mensaje : Texto) : List Texto :=
  (documentos_memoria vs puntaje mensaje).map
    (fun p => reemplazar PREFIJO_CHAT p.2.page_content)

/-- `contexto_rag_documentos`: the documents block of the combined
context, always present, header plus newline-joined document contexts. -/
def contexto_rag_documentos (ctx_documentos : List Texto) : Texto :=
  "\n\n--- CONTEXTO DE DOCUMENTOS ---\n".toList
    ++ List.intercalate "\n".toList ctx_documentos

/-- `historial_largo_plazo`: empty unless the chat-memory context list is
nonempty (Python truthiness of `contexto_chat`), in which case it is the
history header plus the newline-joined memory contexts. -/
def historial_largo_plazo (ctx_chat : List Texto) : Texto :=
  if ctx_chat.isEmpty then []
  else
    "\n\n--- HISTORIAL DE CONVERSACIÓN (MEMORIA) ---\n".toList
      ++ List.intercalate "\n".toList ctx_chat

/-- The fixed persona/grounding instruction heading `prompt_estricto`,
up to and including the line announcing the context. -/
def encabezadoPrompt : Texto :=
  ("Eres Suriel, un asistente amable y servicial que responde SOLO con la información de la base de datos privada.\nSi la respuesta no está claramente en la base de datos, responde simplemente: \"Disculpá, esa información no se encuentra en la base de conocimiento actual.\"\nNo inventes ni uses conocimiento externo.\n\nContexto relevante de la base de datos y memoria de chat:\n").toList

/-- `prompt_estricto`: the f-string of the `/chat` handler — grounding
instruction, the combined context, the user question, and the answer
cue. -/
def prompt_estricto (contexto_combinado mensaje : Texto) : Texto :=
  encabezadoPrompt ++ contexto_combinado
    ++ "\n\nPregunta del usuario: ".toList ++ mensaje
    ++ "\nRespuesta:\n".toList

/-- Prompt assembly of the `/chat` handler as a function of the two
context lists and the message: builds `contexto_combinado` and renders
`prompt_estricto`. -/
def armar_prompt (ctx_documentos ctx_chat : List Texto) (mensaje : Texto) : Texto :=
  prompt_estricto
    (contexto_rag_documentos ctx_documentos ++ historial_largo_plazo ctx_chat)
    mensaje

/-- `turno_completo = f"USUARIO: {solicitud.mensaje}\nSURIEL: {respuesta_generada}"`. -/
def turno_completo (mensaje respuesta : Texto) : Texto :=
  "USUARIO: ".toList ++ mensaje ++ "\nSURIEL: ".toList ++ respuesta

/-- `documento_memoria`: the single memory record built after generation —
content is the chat marker followed by the full turn, metadata
`{"tipo": "chat_turn", "source": "Memoria del Chat"}`. -/
def documento_memoria (mensaje respuesta : Texto) : Documento :=
  { page_content := PREFIJO_CHAT ++ turno_completo mensaje respuesta,
    source := FUENTE_MEMORIA,
    tipo := some "chat_turn".toList }

/-- The observable outcome of a successful `/chat` request: the JSON
response, the resulting store state, and the prompt that was sent to the
generation client. -/
structure SalidaChat where
  respuesta : Texto
  store : VectorStore
  prompt : Texto
deriving DecidableEq, Repr

/-- The `/chat` handler (`chat` in `main.py`).  The Groq client is
abstracted as `llm`; a failure of `add_documents`/`persist` while saving
the memory record is abstracted as `fallo_persistencia = some e` where
`e` is the exception text.  Any exception inside the handler's `try`
block — generation failure or persistence failure alike — is caught by
the `except` clause and re-raised as an HTTP 500 whose detail wraps the
exception text, so no response is returned in those cases. -/
def chat (vs : VectorStore) (puntaje : Texto → Texto → Nat)
    (llm : Texto → Except Texto Texto) (fallo_persistencia : Option Texto)
    (mensaje : Texto) : Except ErrorHttp SalidaChat :=
  match llm (armar_prompt (contexto_documentos vs puntaje mensaje)
      (contexto_chat vs puntaje mensaje) mensaje) with
  | Except.error e =>
      Except.error
        { codigo := 500,
          detalle := "Error interno al generar la respuesta: ".toList ++ e }
  | Except.ok respuesta_generada =>
      match fallo_persistencia with
      | some e =>
          Except.error
            { codigo := 500,
              detalle := "Error interno al generar la respuesta: ".toList ++ e }
      | none =>
          Except.ok
            { respuesta := respuesta_generada,
              store := add_documents vs [documento_memoria mensaje respuesta_generada],
              prompt := armar_prompt (contexto_documentos vs puntaje mensaje)
                (contexto_chat vs puntaje mensaje) mensaje }

/-- Follows the spec's words (§4.5, Retrieval Orchestrator): two
independent `search` calls, one filtered to `channel != memory` with
`k = K_doc`, one filtered to `channel == memory` with `k = K_mem`; the
output is the two ordered text lists, each with its content marker
stripped, never merged. -/
def recuperacionSpec (vs : VectorStore) (puntaje : Texto → Texto → Nat)
    (consulta : Texto) (K_doc K_mem : Nat) : List Texto × List Texto :=
  ((similarity_search vs puntaje consulta K_doc
      (fun d => decide (d.source ≠ FUENTE_MEMORIA))).map
        (fun p => reemplazar PREFIJO_DOCUMENTO p.2.page_content),
   (similarity_search vs puntaje consulta K_mem
      (fun d => decide (d.source = FUENTE_MEMORIA))).map
        (fun p => reemplazar PREFIJO_CHAT p.2.page_content))

/-- The exact fixed refusal sentence of the grounding instruction. -/
def fraseRechazo : Texto :=
  "Disculpá, esa información no se encuentra en la base de conocimiento actual.".toList

/-- Spec-side documents block: always present, possibly empty. -/
def bloqueDocumentos (docs : List Texto) : Texto :=
  "\n\n--- CONTEXTO DE DOCUMENTOS ---\n".toList ++ List.intercalate "\n".toList docs

/-- Spec-side conversation-history block. -/
def bloqueHistorial (mem : List Texto) : Texto :=
  "\n\n--- HISTORIAL DE CONVERSACIÓN (MEMORIA) ---\n".toList
    ++ List.intercalate "\n".toList mem

/-- Spec-side query part closing the prompt. -/
def bloqueConsulta (consulta : Texto) : Texto :=
  "\n\nPregunta del usuario: ".toList ++ consulta ++ "\nRespuesta:\n".toList

/-- Follows the spec's words (§4.6, Prompt Assembler): in fixed order, the
grounding instruction, the documents block (always present), the
conversation-history block (only if the memory context list is nonempty),
and the query. -/
def promptSpec (docs mem : List Texto) (consulta : Texto) : Texto :=
  encabezadoPrompt ++ bloqueDocumentos docs
    ++ (if mem = [] then [] else bloqueHistorial mem)
    ++ bloqueConsulta consulta

/-- Concatenation of the chunks with the overlapping spans removed: the
first chunk in full, every later chunk without its first `O`
characters. -/
def reconstruir (O : Nat) : List Texto → Texto
  | [] => []
  | c :: cs => c ++ (cs.map (List.drop O)).flatten

/-- Well-formed identifier bookkeeping of a store: all identifiers are
distinct and below the next fresh identifier. -/
def IdsValidos (vs : VectorStore) : Prop :=
  (vs.docs.map Prod.fst).Nodup ∧ ∀ p ∈ vs.docs, p.1 < vs.nextId

/-- States of the vector index reachable by any sequence of document
uploads (`POST /upload`) and completed chat exchanges (`POST /chat`),
starting from the empty store. -/
inductive Alcanzable : VectorStore → Prop
  | inicial : Alcanzable VectorStore.vacia
  | subir (vs : VectorStore) (nombre_archivo : Texto) (paginas : List Texto) :
      Alcanzable vs → Alcanzable (subir_pdf vs nombre_archivo paginas).2
  | chatear (vs : VectorStore) (puntaje : Texto → Texto → Nat)
      (llm : Texto → Except Texto Texto) (fallo : Option Texto)
      (mensaje : Texto) (salida : SalidaChat) :
      Alcanzable vs → chat vs puntaje llm fallo mensaje = Except.ok salida →
      Alcanzable salida.store

/-- Two consecutive chunks overlap by exactly `O` characters: the last
`O` characters of the first equal the first `O` characters of the second,
and that overlapping span really has length `O`. -/
def solapaExacto (O : Nat) (a b : Texto) : Prop :=
  a.drop (a.length - O) = b.take O ∧ (a.drop (a.length - O)).length = O

/-! ### Helper lemmas -/

theorem mem_insertarDesc {f : Nat × Documento → Nat} {p x : Nat × Documento}
    {l : List (Nat × Documento)} :
    x ∈ insertarDesc f p l ↔ x = p ∨ x ∈ l := by
  induction l with
  | nil => simp [insertarDesc]
  | cons q qs ih =>
      simp only [insertarDesc]
      split
      · simp
      · simp only [List.mem_cons, ih]
        tauto

theorem mem_ordenarDesc {f : Nat × Documento → Nat} {x : Nat × Documento}
    {l : List (Nat × Documento)} :
    x ∈ ordenarDesc f l ↔ x ∈ l := by
  induction l with
  | nil => simp [ordenarDesc]
  | cons q qs ih => simp [ordenarDesc, mem_insertarDesc, ih]

theorem mem_similarity_search {vs : VectorStore} {f : Texto → Texto → Nat}
    {q : Texto} {k : Nat} {filtro : Documento → Bool} {x : Nat × Documento}
    (hx : x ∈ similarity_search vs f q k filtro) :
    x ∈ vs.docs ∧ filtro x.2 = true := by
  unfold similarity_search at hx
  have h1 := List.take_subset _ _ hx
  rw [mem_ordenarDesc] at h1
  exact List.mem_filter.mp h1

theorem numerar_mem {base : Nat} {l : List Documento} {p : Nat × Documento}
    (hp : p ∈ numerar base l) : base ≤ p.1 ∧ p.1 < base + l.length := by
  induction l generalizing base with
  | nil => simp [numerar] at hp
  | cons d ds ih =>
      simp only [numerar, List.mem_cons] at hp
      rcases hp with rfl | hp
      · refine ⟨Nat.le_refl _, ?_⟩
        show base < base + (d :: ds).length
        simp only [List.length_cons]
        omega
      · have h2 := ih hp
        simp only [List.length_cons]
        omega

theorem numerar_map_fst_nodup (base : Nat) (l : List Documento) :
    ((numerar base l).map Prod.fst).Nodup := by
  induction l generalizing base with
  | nil => simp [numerar]
  | cons d ds ih =>
      simp only [numerar, List.map_cons, List.nodup_cons]
      refine ⟨?_, ih (base + 1)⟩
      intro hmem
      rcases List.mem_map.mp hmem with ⟨p, hp, hfst⟩
      have := numerar_mem hp
      omega

theorem numerar_length (base : Nat) (l : List Documento) :
    (numerar base l).length = l.length := by
  induction l generalizing base with
  | nil => rfl
  | cons d ds ih => simp [numerar, ih]

theorem miembro_unico {l : List (Nat × Documento)}
    (h : (l.map Prod.fst).Nodup) {i : Nat} {a b : Documento}
    (ha : (i, a) ∈ l) (hb : (i, b) ∈ l) : a = b := by
  induction l with
  | nil => simp at ha
  | cons q qs ih =>
      simp only [List.map_cons, List.nodup_cons] at h
      simp only [List.mem_cons] at ha hb
      rcases ha with rfl | ha <;> rcases hb with hb | hb
      · exact (Prod.mk.injEq .. ▸ hb.symm).2
      · exact absurd (List.mem_map.mpr ⟨(i, b), hb, rfl⟩) h.1
      · rw [← hb] at h
        exact absurd (List.mem_map.mpr ⟨(i, a), ha, rfl⟩) h.1
      · exact ih h.2 ha hb

theorem ids_add {vs : VectorStore} (h : IdsValidos vs) (nuevos : List Documento) :
    IdsValidos (add_documents vs nuevos) := by
  obtain ⟨hnd, hlt⟩ := h
  constructor
  · simp only [add_documents, List.map_append, List.nodup_append]
    refine ⟨hnd, numerar_map_fst_nodup _ _, ?_⟩
    intro a ha hb
    rcases List.mem_map.mp ha with ⟨p, hp, rfl⟩
    rcases List.mem_map.mp hb with ⟨q, hq, hfst⟩
    have h1 := hlt p hp
    have h2 := (numerar_mem hq).1
    omega
  · intro p hp
    simp only [add_documents, List.mem_append] at hp
    rcases hp with hp | hp
    · have := hlt p hp
      simp only [add_documents]
      omega
    · have := (numerar_mem hp).2
      simp only [add_documents]
      omega

theorem chat_ok_store {vs : VectorStore} {puntaje : Texto → Texto → Nat}
    {llm : Texto → Except Texto Texto} {fallo : Option Texto} {mensaje : Texto}
    {salida : SalidaChat}
    (h : chat vs puntaje llm fallo mensaje = Except.ok salida) :
    salida.store = add_documents vs [documento_memoria mensaje salida.respuesta] := by
  unfold chat at h
  cases hllm : llm (armar_prompt (contexto_documentos vs puntaje mensaje)
      (contexto_chat vs puntaje mensaje) mensaje) with
  | error e => simp [hllm] at h
  | ok r =>
      rw [hllm] at h
      cases fallo with
      | some e => simp at h
      | none =>
          simp only [Except.ok.injEq] at h
          rw [← h]

theorem alcanzable_ids {vs : VectorStore} (h : Alcanzable vs) : IdsValidos vs := by
  induction h with
  | inicial => exact ⟨List.nodup_nil, by intro p hp; simp [VectorStore.vacia] at hp⟩
  | subir vs nombre paginas _ ih =>
      unfold subir_pdf
      split
      · exact ih
      · exact ids_add ih _
  | chatear vs puntaje llm fallo mensaje salida _ hok ih =>
      rw [chat_ok_store hok]
      exact ids_add ih _

theorem chunkTextGo_length_le {S O : Nat} (hO : O < S) :
    ∀ (fuel : Nat) (s : Texto), s.length ≤ fuel →
      ∀ c ∈ chunkTextGo S O fuel s, c.length ≤ S := by
  intro fuel
  induction fuel with
  | zero =>
      intro s hs c hc
      have hnil : s = [] := List.length_eq_zero.mp (Nat.le_zero.mp hs)
      subst hnil
      simp [chunkTextGo] at hc
  | succ fuel ih =>
      intro s hs c hc
      cases s with
      | nil => simp [chunkTextGo] at hc
      | cons a as =>
          rw [chunkTextGo] at hc
          split at hc
          · rename_i hle
            simp only [List.mem_singleton] at hc
            subst hc
            exact hle
          · rename_i hgt
            simp only [List.mem_cons] at hc
            rcases hc with rfl | hc
            · exact List.length_take_le _ _
            · refine ih _ ?_ _ hc
              simp only [List.length_drop, List.length_cons] at *
              omega
          · simp

theorem chunkTextGo_head {S O : Nat} (fuel : Nat) (s : Texto)
    (hlen : s.length ≤ fuel) (hne : s ≠ []) :
    ∃ cs, chunkTextGo S O fuel s = s.take S :: cs := by
  cases s with
  | nil => exact absurd rfl hne
  | cons a as =>
      cases fuel with
      | zero => simp at hlen
      | succ fuel =>
          rw [chunkTextGo]
          split
          · rename_i hle
            exact ⟨[], by rw [List.take_of_length_le hle]⟩
          · exact ⟨_, rfl⟩
          · simp

theorem drop_ne_nil_of_lt {s : Texto} {n : Nat} (h : n < s.length) :
    s.drop n ≠ [] := by
  intro hnil
  have := congrArg List.length hnil
  simp only [List.length_drop, List.length_nil] at this
  omega

theorem chunkTextGo_chain {S O : Nat} (hO : O < S) :
    ∀ (fuel : Nat) (s : Texto), s.length ≤ fuel →
      List.Chain' (solapaExacto O) (chunkTextGo S O fuel s) := by
  intro fuel
  induction fuel with
  | zero =>
      intro s hs
      have hnil : s = [] := List.length_eq_zero.mp (Nat.le_zero.mp hs)
      subst hnil
      simp [chunkTextGo]
  | succ fuel ih =>
      intro s hs
      cases s with
      | nil => simp [chunkTextGo]
      | cons a as =>
          rw [chunkTextGo]
          split
          · simp
          · rename_i hgt
            push_neg at hgt
            have htl : ((a :: as).drop (S - O)).length ≤ fuel := by
              simp only [List.length_drop, List.length_cons] at *
              omega
            have htO : O < ((a :: as).drop (S - O)).length := by
              simp only [List.length_drop, List.length_cons] at *
              omega
            have htne : (a :: as).drop (S - O) ≠ [] :=
              drop_ne_nil_of_lt (by omega)
            obtain ⟨cs, hcs⟩ := chunkTextGo_head fuel _ htl htne
            rw [hcs, List.chain'_cons]
            constructor
            · have hlen : ((a :: as).take S).length = S := by
                simp only [List.length_take]
                exact Nat.min_eq_left (Nat.le_of_lt hgt)
              constructor
              · rw [hlen, List.drop_take, List.take_take]
                have h1 : S - (S - O) = O := by omega
                have h2 : O ⊓ S = O := Nat.min_eq_left (Nat.le_of_lt hO)
                rw [h1, h2]
              · rw [hlen, List.drop_take]
                simp only [List.length_take, List.length_drop]
                have h1 : S - (S - O) = O := by omega
                rw [h1]
                refine Nat.min_eq_left ?_
                simp only [List.length_drop] at htO
                omega
            · rw [← hcs]
              exact ih _ htl
          · simp

theorem chunkTextGo_reconstruir {S O : Nat} (hO : O < S) :
    ∀ (fuel : Nat) (s : Texto), s.length ≤ fuel →
      reconstruir O (chunkTextGo S O fuel s) = s := by
  intro fuel
  induction fuel with
  | zero =>
      intro s hs
      have hnil : s = [] := List.length_eq_zero.mp (Nat.le_zero.mp hs)
      subst hnil
      simp [chunkTextGo, reconstruir]
  | succ fuel ih =>
      intro s hs
      cases s with
      | nil => simp [chunkTextGo, reconstruir]
      | cons a as =>
          rw [chunkTextGo]
          split
          · simp [reconstruir]
          · rename_i hgt
            push_neg at hgt
            have htl : ((a :: as).drop (S - O)).length ≤ fuel := by
              simp only [List.length_drop, List.length_cons] at *
              omega
            have htO : O < ((a :: as).drop (S - O)).length := by
              simp only [List.length_drop, List.length_cons] at *
              omega
            have htne : (a :: as).drop (S - O) ≠ [] :=
              drop_ne_nil_of_lt (by omega)
            obtain ⟨cs, hcs⟩ := chunkTextGo_head fuel _ htl htne
            have hik := ih _ htl
            rw [hcs] at hik
            simp only [reconstruir] at hik
            rw [hcs]
            simp only [reconstruir, List.map_cons, List.flatten_cons]
            have hOle : O ≤ (((a :: as).drop (S - O)).take S).length := by
              simp only [List.length_take]
              have := Nat.le_of_lt htO
              have h2 := Nat.le_of_lt hO
              exact le_min h2 this
            have hSO : S - O + O = S := by omega
            rw [← List.drop_append_of_le_length hOle, hik, List.drop_drop, hSO,
              List.take_append_drop]
          · simp

/-! ### Claim theorems -/

/-- C1: for every chat query the retrieval step performs exactly two
independent similarity searches — one with filter `source != sentinel`
and budget `k = 9`, one with filter `source == sentinel` and budget
`k = 6` — and keeps the two results as separate ordered text lists (of at
most 9 resp. 6 entries, never merged), each with its content marker
stripped: the handler's `(contexto_documentos, contexto_chat)` pair
coincides with the spec-side dual-channel retrieval at `K_doc = 9`,
`K_mem = 6`. -/
theorem claim1_recuperacion_dual (vs : VectorStore)
    (puntaje : Texto → Texto → Nat) (mensaje : Texto) :
    (contexto_documentos vs puntaje mensaje, contexto_chat vs puntaje mensaje)
      = recuperacionSpec vs puntaje mensaje 9 6
    ∧ (contexto_documentos vs puntaje mensaje).length ≤ 9
    ∧ (contexto_chat vs puntaje mensaje).length ≤ 6 := by
  refine ⟨rfl, ?_, ?_⟩ <;>
    simp only [contexto_documentos, contexto_chat, documentos_rag,
      documentos_memoria, similarity_search, List.length_map] <;>
    exact List.length_take_le _ _

/-- C2: on every reachable index state, the memory-channel search and the
document-channel search on the same query return disjoint identifier
sets, because `source == sentinel` and `source != sentinel` partition the
indexed records. -/
theorem claim2_canales_disjuntos (vs : VectorStore) (h : Alcanzable vs)
    (puntaje : Texto → Texto → Nat) (mensaje : Texto) :
    List.Disjoint ((documentos_rag vs puntaje mensaje).map Prod.fst)
      ((documentos_memoria vs puntaje mensaje).map Prod.fst) := by
  intro i hi1 hi2
  rcases List.mem_map.mp hi1 with ⟨p, hp, hpi⟩
  rcases List.mem_map.mp hi2 with ⟨q, hq, hqi⟩
  simp only [documentos_rag] at hp
  simp only [documentos_memoria] at hq
  have h1 := mem_similarity_search hp
  have h2 := mem_similarity_search hq
  have hps : p.2.source ≠ FUENTE_MEMORIA := of_decide_eq_true h1.2
  have hqs : q.2.source = FUENTE_MEMORIA := of_decide_eq_true h2.2
  have hp' : (i, p.2) ∈ vs.docs := by rw [← hpi]; exact h1.1
  have hq' : (i, q.2) ∈ vs.docs := by rw [← hqi]; exact h2.1
  have := miembro_unico (alcanzable_ids h).1 hp' hq'
  rw [this, hqs] at hps
  exact hps rfl

/-- Witness for C2: a concrete reachable store (one uploaded PDF) on which
the two channel searches have disjoint identifier sets. -/
theorem claim2_canales_disjuntos_witness :
    Alcanzable (subir_pdf VectorStore.vacia "a.pdf".toList ["hola".toList]).2
    ∧ List.Disjoint
        ((documentos_rag (subir_pdf VectorStore.vacia "a.pdf".toList ["hola".toList]).2
            (fun _ _ => 0) "q".toList).map Prod.fst)
        ((documentos_memoria (subir_pdf VectorStore.vacia "a.pdf".toList ["hola".toList]).2
            (fun _ _ => 0) "q".toList).map Prod.fst) :=
  ⟨Alcanzable.subir _ _ _ Alcanzable.inicial,
   claim2_canales_disjuntos _ (Alcanzable.subir _ _ _ Alcanzable.inicial) _ _⟩

/-- C3 counterexample: in a concrete successful chat exchange
(message `"hola"`, generated response `"ok"`) the single persisted memory
record's content is
`"MEMORIA_CHAT: USUARIO: hola\nSURIEL: ok"`, which is not the combined
block `"USER: hola\nASSISTANT: ok"` the claim states. -/
theorem claim3_contenido_memoria_contraejemplo :
    Except.map (fun s => s.store.docs.map (fun p => p.2.page_content))
        (chat VectorStore.vacia (fun _ _ => 0) (fun _ => Except.ok "ok".toList)
          none "hola".toList)
      = Except.ok ["MEMORIA_CHAT: USUARIO: hola\nSURIEL: ok".toList]
    ∧ "MEMORIA_CHAT: USUARIO: hola\nSURIEL: ok".toList
        ≠ "USER: hola\nASSISTANT: ok".toList := by
  constructor
  · rfl
  · decide

/-- C3 as amended: every completed chat exchange is persisted as exactly
one record (never split, regardless of length), tagged with the fixed
sentinel `source = "Memoria del Chat"` (and `tipo = "chat_turn"`), whose
content is the concatenation
`"MEMORIA_CHAT: USUARIO: <message>\nSURIEL: <response>"`. -/
theorem claim3_memoria_un_registro (vs : VectorStore)
    (puntaje : Texto → Texto → Nat) (llm : Texto → Except Texto Texto)
    (mensaje r : Texto)
    (hllm : llm (armar_prompt (contexto_documentos vs puntaje mensaje)
        (contexto_chat vs puntaje mensaje) mensaje) = Except.ok r) :
    chat vs puntaje llm none mensaje = Except.ok
      { respuesta := r,
        store :=
          { docs := vs.docs ++ [(vs.nextId,
              { page_content := "MEMORIA_CHAT: USUARIO: ".toList ++ mensaje
                  ++ "\nSURIEL: ".toList ++ r,
                source := FUENTE_MEMORIA,
                tipo := some "chat_turn".toList })],
            nextId := vs.nextId + 1 },
        prompt := armar_prompt (contexto_documentos vs puntaje mensaje)
          (contexto_chat vs puntaje mensaje) mensaje } := by
  have haux : "MEMORIA_CHAT: ".toList ++ "USUARIO: ".toList
      = "MEMORIA_CHAT: USUARIO: ".toList := by decide
  unfold chat
  rw [hllm]
  simp only [add_documents, numerar, documento_memoria, turno_completo,
    PREFIJO_CHAT, List.length_cons, List.length_nil, ← List.append_assoc, haux]

/-- Witness for C3 (amended): a concrete successful exchange, with the
generation hypothesis discharged by a constant generation client. -/
theorem claim3_memoria_un_registro_witness :
    (fun _ : Texto => Except.ok (ε := Texto) "ok".toList)
        (armar_prompt
          (contexto_documentos VectorStore.vacia (fun _ _ => 0) "hola".toList)
          (contexto_chat VectorStore.vacia (fun _ _ => 0) "hola".toList)
          "hola".toList) = Except.ok "ok".toList
    ∧ chat VectorStore.vacia (fun _ _ => 0)
        (fun _ => Except.ok "ok".toList) none "hola".toList = Except.ok
      { respuesta := "ok".toList,
        store :=
          { docs := VectorStore.vacia.docs ++ [(VectorStore.vacia.nextId,
              { page_content := "MEMORIA_CHAT: USUARIO: ".toList ++ "hola".toList
                  ++ "\nSURIEL: ".toList ++ "ok".toList,
                source := FUENTE_MEMORIA,
                tipo := some "chat_turn".toList })],
            nextId := VectorStore.vacia.nextId + 1 },
        prompt := armar_prompt
          (contexto_documentos VectorStore.vacia (fun _ _ => 0) "hola".toList)
          (contexto_chat VectorStore.vacia (fun _ _ => 0) "hola".toList)
          "hola".toList } :=
  ⟨rfl, claim3_memoria_un_registro VectorStore.vacia (fun _ _ => 0)
    (fun _ => Except.ok "ok".toList) "hola".toList "ok".toList rfl⟩

/-- C4 counterexample: with a generation client that succeeds
(returning `"A1"`) and a persistence step that fails, the `/chat` handler
returns an HTTP 500 error — the already-generated response `"A1"` is NOT
returned to the caller, contradicting the claim that the failure is only
logged and the response still delivered. -/
theorem claim4_persistencia_contraejemplo :
    chat VectorStore.vacia (fun _ _ => 0) (fun _ => Except.ok "A1".toList)
        (some "disco lleno".toList) "Q1".toList
      = Except.error
          { codigo := 500,
            detalle := "Error interno al generar la respuesta: disco lleno".toList } := by
  rfl

/-- C4 as amended: if adding or persisting the memory record fails after
the response has been generated, the exception propagates to the
handler's `except` clause and is surfaced to the caller as a server error
(HTTP 500 wrapping the failure text); the already-generated response is
not returned. -/
theorem claim4_persistencia_error_500 (vs : VectorStore)
    (puntaje : Texto → Texto → Nat) (mensaje r e : Texto) :
    chat vs puntaje (fun _ => Except.ok r) (some e) mensaje
      = Except.error
          { codigo := 500,
            detalle := "Error interno al generar la respuesta: ".toList ++ e } := rfl

/-- C5: the assembled prompt is, in fixed order, the grounding
instruction (which contains the exact fixed refusal sentence), the
always-present documents block, the conversation-history block included
if and only if the memory context list is nonempty, and the query text:
the handler's prompt assembly coincides with the spec-side structure. -/
theorem claim5_prompt_estructura (docs mem : List Texto) (consulta : Texto) :
    armar_prompt docs mem consulta = promptSpec docs mem consulta
    ∧ ∃ antes despues, encabezadoPrompt = antes ++ fraseRechazo ++ despues := by
  constructor
  · unfold armar_prompt promptSpec prompt_estricto contexto_rag_documentos
      historial_largo_plazo bloqueDocumentos bloqueHistorial bloqueConsulta
    cases mem with
    | nil => simp
    | cons x xs => simp [List.append_assoc]
  · refine ⟨("Eres Suriel, un asistente amable y servicial que responde SOLO con la información de la base de datos privada.\nSi la respuesta no está claramente en la base de datos, responde simplemente: \"").toList,
      ("\"\nNo inventes ni uses conocimiento externo.\n\nContexto relevante de la base de datos y memoria de chat:\n").toList, ?_⟩
    decide

/-- C6: prompt assembly is a pure deterministic function of the document
context list, the memory context list and the query text — identical
inputs yield identical prompt strings. -/
theorem claim6_prompt_determinista (d1 d2 m1 m2 : List Texto) (q1 q2 : Texto)
    (hd : d1 = d2) (hm : m1 = m2) (hq : q1 = q2) :
    armar_prompt d1 m1 q1 = armar_prompt d2 m2 q2 := by
  rw [hd, hm, hq]

/-- Witness for C6: two evaluations on (syntactically) identical concrete
inputs yield the same prompt. -/
theorem claim6_prompt_determinista_witness :
    ["doc".toList] = ["doc".toList]
    ∧ ["mem".toList] = ["mem".toList]
    ∧ "q".toList = "q".toList
    ∧ armar_prompt ["doc".toList] ["mem".toList] "q".toList
        = armar_prompt ["doc".toList] ["mem".toList] "q".toList :=
  ⟨rfl, rfl, rfl,
   claim6_prompt_determinista ["doc".toList] ["doc".toList] ["mem".toList]
     ["mem".toList] "q".toList "q".toList rfl rfl rfl⟩

/-- C7: with the reference parameters `S = 1000`, `O = 100`, every chunk
produced by the chunker has length at most 1000, every pair of
consecutive chunks overlaps by exactly 100 characters, and concatenating
the chunks with the overlapping spans removed reconstructs the input
text. -/
theorem claim7_chunker (s : Texto) :
    (∀ c ∈ chunkText 1000 100 s, c.length ≤ 1000)
    ∧ List.Chain' (solapaExacto 100) (chunkText 1000 100 s)
    ∧ reconstruir 100 (chunkText 1000 100 s) = s := by
  have hO : (100 : Nat) < 1000 := by omega
  exact ⟨chunkTextGo_length_le hO _ s le_rfl,
    chunkTextGo_chain hO _ s le_rfl,
    chunkTextGo_reconstruir hO _ s le_rfl⟩

/-- C8: uploading a document that splits into `n` chunks adds exactly `n`
records to the vector index — `count()` grows by exactly `n` — and the
number `n` of chunks created is returned to the caller (by
`agregar_pdf_a_vectorstore`, and inside the success message of
`POST /upload`). -/
theorem claim8_subida_cuenta (vs : VectorStore) (paginas : List Texto)
    (nombre_archivo : Texto) :
    (agregar_pdf_a_vectorstore vs paginas nombre_archivo).1
        = (dividirDocumentos (etiquetarPaginas paginas nombre_archivo)).length
    ∧ obtener_conteo_total_de_vectores (agregar_pdf_a_vectorstore vs paginas nombre_archivo).2
        = obtener_conteo_total_de_vectores vs
          + (agregar_pdf_a_vectorstore vs paginas nombre_archivo).1
    ∧ (terminaEn ".pdf".toList nombre_archivo = true →
        subir_pdf vs nombre_archivo paginas
          = (Except.ok (mensajeSubida nombre_archivo
              (agregar_pdf_a_vectorstore vs paginas nombre_archivo).1),
             (agregar_pdf_a_vectorstore vs paginas nombre_archivo).2)) := by
  refine ⟨rfl, ?_, ?_⟩
  · simp [agregar_pdf_a_vectorstore, obtener_conteo_total_de_vectores,
      add_documents, numerar_length]
  · intro hpdf
    unfold subir_pdf
    rw [hpdf]
    simp

/-- Witness for C8: a concrete one-page PDF upload, with the filename
hypothesis of the upload branch discharged. -/
theorem claim8_subida_cuenta_witness :
    terminaEn ".pdf".toList "a.pdf".toList = true
    ∧ subir_pdf VectorStore.vacia "a.pdf".toList ["hola".toList]
        = (Except.ok (mensajeSubida "a.pdf".toList
            (agregar_pdf_a_vectorstore VectorStore.vacia ["hola".toList] "a.pdf".toList).1),
           (agregar_pdf_a_vectorstore VectorStore.vacia ["hola".toList] "a.pdf".toList).2) :=
  ⟨by decide,
   (claim8_subida_cuenta VectorStore.vacia ["hola".toList] "a.pdf".toList).2.2 (by decide)⟩

/-- C9: an upload whose filename does not end in `.pdf` is rejected with a
client error (HTTP 400) and the vector index is unchanged: the store is
the same and `count()` before equals `count()` after. -/
theorem claim9_rechazo_no_pdf (vs : VectorStore) (nombre_archivo : Texto)
    (paginas : List Texto)
    (h : terminaEn ".pdf".toList nombre_archivo = false) :
    (subir_pdf vs nombre_archivo paginas).1
        = Except.error
            { codigo := 400, detalle := "Solo se permiten archivos PDF.".toList }
    ∧ (subir_pdf vs nombre_archivo paginas).2 = vs
    ∧ obtener_conteo_total_de_vectores (subir_pdf vs nombre_archivo paginas).2
        = obtener_conteo_total_de_vectores vs := by
  unfold subir_pdf
  rw [h]
  simp

/-- Witness for C9: a concrete non-PDF filename is rejected and leaves the
store untouched. -/
theorem claim9_rechazo_no_pdf_witness :
    terminaEn ".pdf".toList "nota.txt".toList = false
    ∧ ((subir_pdf VectorStore.vacia "nota.txt".toList ["hola".toList]).1
        = Except.error
            { codigo := 400, detalle := "Solo se permiten archivos PDF.".toList }
      ∧ (subir_pdf VectorStore.vacia "nota.txt".toList ["hola".toList]).2 = VectorStore.vacia
      ∧ obtener_conteo_total_de_vectores (subir_pdf VectorStore.vacia "nota.txt".toList ["hola".toList]).2
          = obtener_conteo_total_de_vectores VectorStore.vacia) :=
  ⟨by decide,
   claim9_rechazo_no_pdf VectorStore.vacia "nota.txt".toList ["hola".toList] (by decide)⟩

/-- C10: marker stripping on retrieved context is substring replacement
over the whole chunk text — every occurrence of the marker is removed,
not only the leading tag.  For a document whose own body contains
`"DOCUMENTO_RAG: "`, the document-channel context handed to prompt
assembly (`"hola mundo"`) differs from the chunk text with only the
leading marker removed (`"hola DOCUMENTO_RAG: mundo"`). -/
theorem claim10_marcador_interior :
    contexto_documentos
        (agregar_pdf_a_vectorstore VectorStore.vacia
          ["hola DOCUMENTO_RAG: mundo".toList] "apunte.pdf".toList).2
        (fun _ _ => 0) "que".toList
      = ["hola mundo".toList]
    ∧ "hola mundo".toList ≠ "hola DOCUMENTO_RAG: mundo".toList := by
  constructor
  · rfl
  · decide
